import Mathlib

/-!
Shallow embedding of `piksi_tools/console/output_list.py`, a bounded,
filterable, pausable log-line buffer (Python 2, Traits-based).

Modelling conventions:
 -  Python strings become Lean `String`; the relevant Python string methods
    (`isspace`, `lower`, `rstrip`, `split`) are embedded below with
    byte-string (ASCII) semantics, which is what Python 2 `str` uses.
 -  The `timestamp` field of `LogItem` is wall-clock output
    (`time.strftime`) and is irrelevant to every property treated here,
    so the embedded `LogItem` carries only `log_level` and `msg`.
 -  `append_truncate` contains an `assert`, and with `max_len = None` the
    Python 2 expressions `len(buffer) > None` (always `True`, since `None`
    compares below every integer in Python 2) and `len(buffer) - None`
    (raises `TypeError`) make the write paths fallible.  Fallible code is
    embedded in the `PyResult` monad.
 -  Traits change notifications (`_log_level_filter_changed`,
    `_paused_changed`) fire exactly when the trait value changes; the
    setters below model that.  Assigning a plain list to a Traits `List`
    trait stores a fresh `TraitListObject` copy, so list-trait assignment
    is value assignment, which matches the functional embedding.
-/

/-! Log level constants (module-level in the source). -/

def LOG_EMERG : Int := 0

def LOG_ALERT : Int := 1

def LOG_CRIT : Int := 2

def LOG_ERROR : Int := 3

def LOG_WARN : Int := 4

def LOG_NOTICE : Int := 5

def LOG_INFO : Int := 6

def LOG_DEBUG : Int := 7

def LOG_LEVEL_CONSOLE : Int := -1

def LOG_LEVEL_DEFAULT : Int := -2

/-- Embeds `OTHERLOG_LEVELS = {LOG_LEVEL_CONSOLE: "CONSOLE"}` as an association list. -/
def OTHERLOG_LEVELS : List (Int × String) := [(LOG_LEVEL_CONSOLE, "CONSOLE")]

/-- Embeds `SYSLOG_LEVELS`: the maskable levels, with the commented-out entries of the
source omitted just as the source omits them. -/
def SYSLOG_LEVELS : List (Int × String) :=
  [(LOG_ERROR, "ERROR"), (LOG_WARN, "WARNING"), (LOG_INFO, "INFO"), (LOG_DEBUG, "DEBUG")]

/-- Embeds `ALL_LOG_LEVELS = SYSLOG_LEVELS.copy(); ALL_LOG_LEVELS.update(OTHERLOG_LEVELS)`.
The key sets are disjoint, so association-list lookup agrees with dict lookup. -/
def ALL_LOG_LEVELS : List (Int × String) := SYSLOG_LEVELS ++ OTHERLOG_LEVELS

def DEFAULT_LOG_LEVEL_FILTER : String := "WARNING"

def DEFAULT_MAX_LEN : Nat := 250

/-! Embedded Python 2 string primitives. -/

/-- Python 2 `str.lower()`: ASCII lowercase applied to each character,
other bytes unchanged.  `Char.toLower` lowercases exactly the ASCII
range. -/
def pyLower (s : String) : String :=
  String.mk (s.toList.map Char.toLower)

/-- The six whitespace bytes recognised by Python 2 `str.isspace()`. -/
def pyIsSpaceChar (c : Char) : Bool :=
  c == ' ' || c == '\t' || c == '\n' || c == '\x0d' || c == '\x0b' || c == '\x0c'

/-- Python 2 `str.isspace()`: true iff the string is nonempty and every
character is whitespace. -/
def pyIsspace (s : String) : Bool :=
  !s.isEmpty && s.toList.all pyIsSpaceChar

/-- Python `msg.rstrip('\n')`: drop trailing newline characters. -/
def pyRstripNewlines (s : String) : String :=
  String.mk (List.reverse ((List.reverse s.toList).dropWhile (fun c => c == '\n')))

/-- Head of `msg.split(":")`, i.e. the text preceding the first colon:
all characters up to the first colon, the whole string when there is no
colon (Python `split` never returns an empty list, so indexing `[0]` is
safe). -/
def splitColonsHead (msg : String) : String :=
  String.mk (msg.toList.takeWhile (fun c => !(c == ':')))

/-! The LogItem record. -/

/-- Embeds the data of a `LogItem` (`log_level`, `msg`); the `timestamp`
trait is wall-clock-dependent display text unused by any buffer logic. -/
structure LogItem where
  log_level : Int
  msg : String
deriving DecidableEq, Repr

/-- The log-level inference loop of `LogItem.__init__` for `level == None`:
starting from `LOG_LEVEL_DEFAULT`, for each `(key, value)` in
`SYSLOG_LEVELS` set the level to `key` when
`split_colons[0].lower() == value.lower()`. -/
def inferLogLevel (msg : String) : Int :=
  SYSLOG_LEVELS.foldl
    (fun acc kv => if pyLower (splitColonsHead msg) == pyLower kv.2 then kv.1 else acc)
    LOG_LEVEL_DEFAULT

/-- Embeds `LogItem.__init__(msg, level)`: infer the level when `level` is `None`,
otherwise take it verbatim; store `msg.rstrip('\n')`. -/
def LogItem.init (msg : String) (level : Option Int) : LogItem :=
  { log_level :=
      match level with
      | none => inferLogLevel msg
      | some l => l
    msg := pyRstripNewlines msg }

/-- Embeds `LogItem.log_level_str`: `ALL_LOG_LEVELS.get(self.log_level, "UNKNOWN")`. -/
def LogItem.log_level_str (item : LogItem) : String :=
  (ALL_LOG_LEVELS.lookup item.log_level).getD "UNKNOWN"

/-- Embeds `LogItem.matches_log_level_filter(log_level)`:
true iff `self.log_level <= log_level`. -/
def LogItem.matches_log_level_filter (item : LogItem) (log_level : Int) : Bool :=
  item.log_level ≤ log_level

/-! Fallible computation: Python exceptions surfaced by the buffer code. -/

/-- Result of a buffer operation: normal return, or one of the two
exceptions `append_truncate` can raise (`TypeError` from `len(buffer) -
None`, `AssertionError` from the overrun assert). -/
inductive PyResult (α : Type) where
  | ok : α → PyResult α
  | typeError : PyResult α
  | assertionError : PyResult α
deriving DecidableEq, Repr

instance : Monad PyResult where
  pure := PyResult.ok
  bind := fun r f =>
    match r with
    | .ok a => f a
    | .typeError => .typeError
    | .assertionError => .assertionError

/-! The OutputList state and its methods. -/

/-- The state of an `OutputList`: its five data traits.  (`max_len` is
`Trait(DEFAULT_MAX_LEN, None, Int)`, i.e. an optional integer.) -/
structure OutputList where
  unfiltered_list : List LogItem
  _paused_buffer : List LogItem
  filtered_list : List LogItem
  log_level_filter : Int
  max_len : Option Nat
  paused : Bool
deriving DecidableEq, Repr

/-- Embeds `OutputList.append_truncate(buffer, s)` under Python 2 semantics,
returning the new buffer contents.

With `max_len = None`: `len(buffer) > None` is `True` for every length
(in Python 2 `None` orders below every integer), and the assert condition
`(len(buffer) - self.max_len) == 1` then evaluates `int - None`, raising
`TypeError`.  With `max_len = n`: when the length exceeds `n` the assert
requires the excess to be exactly 1, then `buffer.pop()` drops the last
(oldest) element; finally `buffer.insert(0, s)` prepends the new item. -/
def append_truncate (max_len : Option Nat) (buffer : List LogItem) (s : LogItem) :
    PyResult (List LogItem) :=
  match max_len with
  | none => .typeError
  | some n =>
      if buffer.length > n then
        if buffer.length - n = 1 then
          .ok (s :: buffer.dropLast)
        else
          .assertionError
      else
        .ok (s :: buffer)

/-- The shared append path of `write` and `write_level` (the source
duplicates this block verbatim in both methods): paused writes go to
`_paused_buffer`; unpaused writes go to `unfiltered_list` and, when the
item passes the current filter, also to `filtered_list`. -/
def OutputList.route (o : OutputList) (log : LogItem) : PyResult OutputList :=
  if o.paused then do
    let b ← append_truncate o.max_len o._paused_buffer log
    pure { o with _paused_buffer := b }
  else do
    let u ← append_truncate o.max_len o.unfiltered_list log
    if log.matches_log_level_filter o.log_level_filter then do
      let f ← append_truncate o.max_len o.filtered_list log
      pure { o with unfiltered_list := u, filtered_list := f }
    else
      pure { o with unfiltered_list := u }

/-- Embeds `OutputList.write(s)`: whitespace-only strings are discarded
(`if not s.isspace()`); otherwise the string becomes
`LogItem(s, LOG_LEVEL_CONSOLE)` and is routed. -/
def OutputList.write (o : OutputList) (s : String) : PyResult OutputList :=
  if pyIsspace s then pure o
  else o.route (LogItem.init s (some LOG_LEVEL_CONSOLE))

/-- Embeds `OutputList.write_level(s, level)`: the string becomes
`LogItem(s, level)` (level inference when `level` is `None`) and is routed
unconditionally. -/
def OutputList.write_level (o : OutputList) (s : String) (level : Option Int) :
    PyResult OutputList :=
  o.route (LogItem.init s level)

/-- Embeds `OutputList.clear()`. -/
def OutputList.clear (o : OutputList) : OutputList :=
  { o with _paused_buffer := [], filtered_list := [], unfiltered_list := [] }

/-- Embeds `OutputList._log_level_filter_changed()`: rebuild `filtered_list` as
the sublist of `unfiltered_list` passing the current filter. -/
def OutputList.log_level_filter_changed (o : OutputList) : OutputList :=
  { o with
      filtered_list :=
        o.unfiltered_list.filter
          (fun item => item.matches_log_level_filter o.log_level_filter) }

/-- Embeds `OutputList._paused_changed()`: on entering pause, seed
`_paused_buffer` from the current `unfiltered_list`; on leaving pause,
move `_paused_buffer` to `unfiltered_list`, refilter, and clear
`_paused_buffer`. -/
def OutputList.paused_changed (o : OutputList) : OutputList :=
  if o.paused then
    { o with _paused_buffer := o.unfiltered_list }
  else
    let o1 := { o with unfiltered_list := o._paused_buffer }
    let o2 := o1.log_level_filter_changed
    { o2 with _paused_buffer := [] }

/-- Assigning the `paused` trait: the `_paused_changed` notification fires
exactly when the value changes. -/
def OutputList.set_paused (o : OutputList) (b : Bool) : OutputList :=
  if b = o.paused then o
  else OutputList.paused_changed { o with paused := b }

/-- Assigning the `log_level_filter` trait: the `_log_level_filter_changed`
notification fires exactly when the value changes. -/
def OutputList.set_log_level_filter (o : OutputList) (lvl : Int) : OutputList :=
  if lvl = o.log_level_filter then o
  else OutputList.log_level_filter_changed { o with log_level_filter := lvl }

/-- Assigning the `max_len` trait (UI configuration; no notification
handler exists for it in the source). -/
def OutputList.set_max_len (o : OutputList) (m : Option Nat) : OutputList :=
  { o with max_len := m }

/-- A freshly constructed `OutputList`: empty lists, not paused,
`max_len = DEFAULT_MAX_LEN`, filter at the default `WARNING` threshold. -/
def OutputList.initial : OutputList :=
  { unfiltered_list := []
    _paused_buffer := []
    filtered_list := []
    log_level_filter := LOG_WARN
    max_len := some DEFAULT_MAX_LEN
    paused := false }

/-! Operation sequences. -/

/-- One call of a write entry point. -/
inductive WriteOp where
  | raw : String → WriteOp
  | leveled : String → Option Int → WriteOp
deriving DecidableEq, Repr

/-- Run one write call. -/
def OutputList.runWrite (o : OutputList) : WriteOp → PyResult OutputList
  | .raw s => o.write s
  | .leveled s lvl => o.write_level s lvl

/-- Run a sequence of write calls, stopping at the first exception. -/
def OutputList.runWrites (o : OutputList) : List WriteOp → PyResult OutputList
  | [] => pure o
  | op :: ops => do
      let o' ← o.runWrite op
      o'.runWrites ops

/-- The filtered-view invariant: `filtered_list` is exactly the sublist of
`unfiltered_list` passing the current filter, in order. -/
def filteredOk (o : OutputList) : Prop :=
  o.filtered_list =
    o.unfiltered_list.filter (fun item => item.matches_log_level_filter o.log_level_filter)

instance (o : OutputList) : Decidable (filteredOk o) := by
  unfold filteredOk; infer_instance

/-! Helper lemmas. -/

@[simp] theorem PyResult.ok_bind {α β : Type} (a : α) (f : α → PyResult β) :
    (PyResult.ok a >>= f) = f a := rfl

@[simp] theorem PyResult.typeError_bind {α β : Type} (f : α → PyResult β) :
    ((PyResult.typeError : PyResult α) >>= f) = PyResult.typeError := rfl

@[simp] theorem PyResult.assertionError_bind {α β : Type} (f : α → PyResult β) :
    ((PyResult.assertionError : PyResult α) >>= f) = PyResult.assertionError := rfl

@[simp] theorem PyResult.pure_eq_ok {α : Type} (a : α) :
    (pure a : PyResult α) = PyResult.ok a := rfl

/-- When the buffer is within the bound, `append_truncate` just prepends. -/
theorem append_truncate_of_length_le (n : Nat) (b : List LogItem) (x : LogItem)
    (h : b.length ≤ n) : append_truncate (some n) b x = .ok (x :: b) := by
  unfold append_truncate
  have hng : ¬ b.length > n := by omega
  simp [hng]

/-- When the buffer is within the bound plus one, `append_truncate`
succeeds and keeps the result within the bound plus one. -/
theorem append_truncate_ok_of_length (n : Nat) (b : List LogItem) (x : LogItem)
    (h : b.length ≤ n + 1) :
    ∃ b', append_truncate (some n) b x = .ok b' ∧ b'.length ≤ n + 1 := by
  unfold append_truncate
  by_cases hgt : b.length > n
  · have h1 : b.length - n = 1 := by omega
    refine ⟨x :: b.dropLast, by simp [hgt, h1], ?_⟩
    simp [List.length_dropLast]
    omega
  · exact ⟨x :: b, by simp [hgt], by simp; omega⟩

/-- Members of an `append_truncate` result are the new item or old members. -/
theorem mem_of_append_truncate (ml : Option Nat) (b b' : List LogItem) (x i : LogItem)
    (hok : append_truncate ml b x = .ok b') (hi : i ∈ b') : i = x ∨ i ∈ b := by
  cases ml with
  | none => simp [append_truncate] at hok
  | some n =>
      simp only [append_truncate] at hok
      split at hok
      · split at hok
        · injection hok with h
          subst h
          rcases List.mem_cons.mp hi with h | h
          · exact Or.inl h
          · exact Or.inr (List.dropLast_subset b h)
        · cases hok
      · injection hok with h
        subst h
        rcases List.mem_cons.mp hi with h | h
        · exact Or.inl h
        · exact Or.inr h

/-- An `append_truncate` result starts with the new item. -/
theorem head_of_append_truncate (ml : Option Nat) (b b' : List LogItem) (x : LogItem)
    (hok : append_truncate ml b x = .ok b') : b'.head? = some x := by
  cases ml with
  | none => simp [append_truncate] at hok
  | some n =>
      simp only [append_truncate] at hok
      split at hok
      · split at hok
        · injection hok with h
          subst h
          rfl
        · cases hok
      · injection hok with h
        subst h
        rfl

/-- Effect of the append path in the paused state: only `_paused_buffer`
changes, by one `append_truncate`. -/
theorem route_paused (o : OutputList) (log : LogItem) (o' : OutputList)
    (hp : o.paused = true) (h : o.route log = .ok o') :
    o'.unfiltered_list = o.unfiltered_list ∧ o'.filtered_list = o.filtered_list ∧
      o'.log_level_filter = o.log_level_filter ∧ o'.max_len = o.max_len ∧
      o'.paused = o.paused ∧
      append_truncate o.max_len o._paused_buffer log = .ok o'._paused_buffer := by
  unfold OutputList.route at h
  rw [hp] at h
  simp only [if_true] at h
  cases hb : append_truncate o.max_len o._paused_buffer log with
  | ok b =>
      rw [hb] at h
      simp only [PyResult.ok_bind, PyResult.pure_eq_ok] at h
      injection h with h
      subst h
      exact ⟨rfl, rfl, rfl, rfl, hp.symm, rfl⟩
  | typeError => rw [hb] at h; exact PyResult.noConfusion h
  | assertionError => rw [hb] at h; exact PyResult.noConfusion h

/-- Effect of the append path in the unpaused state: `unfiltered_list`
gets one `append_truncate`; `filtered_list` gets one too exactly when the
new item passes the filter; `_paused_buffer` and the scalar traits are
untouched. -/
theorem route_unpaused (o : OutputList) (log : LogItem) (o' : OutputList)
    (hp : o.paused = false) (h : o.route log = .ok o') :
    append_truncate o.max_len o.unfiltered_list log = .ok o'.unfiltered_list ∧
      o'._paused_buffer = o._paused_buffer ∧
      o'.log_level_filter = o.log_level_filter ∧ o'.max_len = o.max_len ∧
      o'.paused = o.paused ∧
      ((log.matches_log_level_filter o.log_level_filter = true ∧
          append_truncate o.max_len o.filtered_list log = .ok o'.filtered_list) ∨
        (log.matches_log_level_filter o.log_level_filter = false ∧
          o'.filtered_list = o.filtered_list)) := by
  unfold OutputList.route at h
  rw [hp] at h
  simp only [Bool.false_eq_true, if_false] at h
  cases hu : append_truncate o.max_len o.unfiltered_list log with
  | ok u =>
      rw [hu] at h
      simp only [PyResult.ok_bind] at h
      by_cases hpass : log.matches_log_level_filter o.log_level_filter = true
      · simp only [hpass, if_true] at h
        cases hf : append_truncate o.max_len o.filtered_list log with
        | ok f =>
            rw [hf] at h
            simp only [PyResult.ok_bind, PyResult.pure_eq_ok] at h
            injection h with h
            subst h
            exact ⟨rfl, rfl, rfl, rfl, hp.symm, Or.inl ⟨hpass, rfl⟩⟩
        | typeError => rw [hf] at h; exact PyResult.noConfusion h
        | assertionError => rw [hf] at h; exact PyResult.noConfusion h
      · simp only [hpass, if_false] at h
        simp only [PyResult.pure_eq_ok] at h
        injection h with h
        subst h
        exact ⟨rfl, rfl, rfl, rfl, hp.symm, Or.inr ⟨by simpa using hpass, rfl⟩⟩
  | typeError => rw [hu] at h; exact PyResult.noConfusion h
  | assertionError => rw [hu] at h; exact PyResult.noConfusion h

/-- All three buffers are within `max_len + 1` (the tightest bound the
append path actually maintains: truncation fires only before an insert
that happens when the bound is already exceeded). -/
def lensBounded (n : Nat) (o : OutputList) : Prop :=
  o.unfiltered_list.length ≤ n + 1 ∧ o._paused_buffer.length ≤ n + 1 ∧
    o.filtered_list.length ≤ n + 1

/-- With a numeric `max_len`, one routed append from a bounded state
succeeds and stays bounded. -/
theorem route_bounded (o : OutputList) (log : LogItem) (n : Nat)
    (hml : o.max_len = some n) (hb : lensBounded n o) :
    ∃ o', o.route log = .ok o' ∧ o'.max_len = some n ∧ lensBounded n o' := by
  obtain ⟨hu, hp, hf⟩ := hb
  unfold OutputList.route
  cases hpause : o.paused with
  | true =>
      simp only [if_true]
      obtain ⟨b', hb', hlb⟩ := append_truncate_ok_of_length n o._paused_buffer log hp
      rw [hml, hb']
      simp only [PyResult.ok_bind, PyResult.pure_eq_ok]
      exact ⟨_, rfl, rfl, hu, hlb, hf⟩
  | false =>
      simp only [Bool.false_eq_true, if_false]
      obtain ⟨u', hu', hlu⟩ := append_truncate_ok_of_length n o.unfiltered_list log hu
      rw [hml, hu']
      simp only [PyResult.ok_bind]
      by_cases hpass : log.matches_log_level_filter o.log_level_filter = true
      · simp only [hpass, if_true]
        obtain ⟨f', hf', hlf⟩ := append_truncate_ok_of_length n o.filtered_list log hf
        rw [hf']
        simp only [PyResult.ok_bind, PyResult.pure_eq_ok]
        exact ⟨_, rfl, rfl, hlu, hp, hlf⟩
      · simp only [hpass, if_false, PyResult.pure_eq_ok]
        exact ⟨_, rfl, rfl, hlu, hp, hf⟩

/-- One write call from a bounded state succeeds and stays bounded. -/
theorem runWrite_bounded (o : OutputList) (op : WriteOp) (n : Nat)
    (hml : o.max_len = some n) (hb : lensBounded n o) :
    ∃ o', o.runWrite op = .ok o' ∧ o'.max_len = some n ∧ lensBounded n o' := by
  cases op with
  | raw s =>
      show ∃ o', o.write s = .ok o' ∧ _
      unfold OutputList.write
      by_cases hs : pyIsspace s = true
      · simp only [hs, if_true, PyResult.pure_eq_ok]
        exact ⟨o, rfl, hml, hb⟩
      · simp only [hs, if_false]
        exact route_bounded o _ n hml hb
  | leveled s lvl =>
      exact route_bounded o _ n hml hb

/-- Any sequence of write calls from a bounded state succeeds and stays
bounded. -/
theorem runWrites_bounded (ops : List WriteOp) (o : OutputList) (n : Nat)
    (hml : o.max_len = some n) (hb : lensBounded n o) :
    ∃ o', o.runWrites ops = .ok o' ∧ o'.max_len = some n ∧ lensBounded n o' := by
  induction ops generalizing o with
  | nil => exact ⟨o, rfl, hml, hb⟩
  | cons op ops ih =>
      obtain ⟨o1, h1, hml1, hb1⟩ := runWrite_bounded o op n hml hb
      obtain ⟨o2, h2, hml2, hb2⟩ := ih o1 hml1 hb1
      refine ⟨o2, ?_, hml2, hb2⟩
      show (o.runWrite op >>= fun o' => o'.runWrites ops) = .ok o2
      rw [h1]
      simpa using h2

/-- The severity-inference rule as the specification words it: take the
text preceding the first colon, compare it case-insensitively against the
known labels ERROR, WARNING, INFO, DEBUG; on a match assign that level,
otherwise the default sentinel.  Stated independently of the
implementation loop for comparison with `inferLogLevel`. -/
def specInferredLevel (s : String) : Int :=
  if pyLower (splitColonsHead s) = pyLower "ERROR" then LOG_ERROR
  else if pyLower (splitColonsHead s) = pyLower "WARNING" then LOG_WARN
  else if pyLower (splitColonsHead s) = pyLower "INFO" then LOG_INFO
  else if pyLower (splitColonsHead s) = pyLower "DEBUG" then LOG_DEBUG
  else LOG_LEVEL_DEFAULT

/-- The dictionary-iteration loop of the source computes exactly the
spec-worded rule (the labels are pairwise distinct, so iteration order is
irrelevant). -/
theorem inferLogLevel_eq_spec (s : String) : inferLogLevel s = specInferredLevel s := by
  unfold inferLogLevel specInferredLevel SYSLOG_LEVELS
  simp only [List.foldl_cons, List.foldl_nil, beq_iff_eq]
  have hE : pyLower "ERROR" = "error" := by decide
  have hW : pyLower "WARNING" = "warning" := by decide
  have hI : pyLower "INFO" = "info" := by decide
  have hD : pyLower "DEBUG" = "debug" := by decide
  rw [hE, hW, hI, hD]
  generalize pyLower (splitColonsHead s) = q
  by_cases h1 : q = "error" <;> by_cases h2 : q = "warning" <;>
    by_cases h3 : q = "info" <;> by_cases h4 : q = "debug" <;>
    simp_all

/-- An unpaused, non-truncating routed append preserves the filtered-view
invariant. -/
theorem route_preserves_filteredOk (o : OutputList) (log : LogItem) (n : Nat)
    (o' : OutputList) (hml : o.max_len = some n) (hp : o.paused = false)
    (hlen : o.unfiltered_list.length ≤ n) (hok : filteredOk o)
    (h : o.route log = .ok o') : filteredOk o' := by
  obtain ⟨hu, hpb, hfilt, hml2, hpause, hdisj⟩ := route_unpaused o log o' hp h
  rw [hml, append_truncate_of_length_le n _ log hlen] at hu
  injection hu with hu
  unfold filteredOk
  rw [hfilt, ← hu]
  rcases hdisj with ⟨hpass, hf⟩ | ⟨hpass, hf⟩
  · have hflen : o.filtered_list.length ≤ n := by
      rw [hok]
      exact le_trans (List.length_filter_le _ _) hlen
    rw [hml, append_truncate_of_length_le n _ log hflen] at hf
    injection hf with hf
    rw [← hf, List.filter_cons]
    simp only [hpass, if_true]
    exact congrArg (List.cons log) hok
  · rw [hf, List.filter_cons]
    simp only [hpass, Bool.false_eq_true, if_false]
    exact hok

/-! Claim theorems. -/

/-- Claim C3 (refuting the claim, exposing the code bug): with `max_len`
set to `None`, far from being unbounded, every raw write of
non-whitespace text and every leveled write raises `TypeError` inside
`append_truncate` (`len(buffer) > None` is `True` in Python 2, and the
assert then computes `len(buffer) - None`), contradicting the class
docstring, which says `max_len` may be set to `None`. -/
theorem C3_max_len_none_write_fails :
    (OutputList.initial.set_max_len none).write "x" = PyResult.typeError ∧
    (OutputList.initial.set_max_len none).write_level "y" none = PyResult.typeError := by
  constructor
  · decide
  · decide

/-- Claim C6: with no explicit level, `write_level` severity comes from
the text before the first colon, matched case-insensitively against the
known labels (ERROR, WARNING, INFO, DEBUG), defaulting to
`LOG_LEVEL_DEFAULT`; in particular "ERROR: disk full" gets severity
`LOG_ERROR` and display label "ERROR". -/
theorem C6_level_inference :
    (∀ s : String, (LogItem.init s none).log_level = specInferredLevel s) ∧
    (LogItem.init "ERROR: disk full" none).log_level = LOG_ERROR ∧
    (LogItem.init "ERROR: disk full" none).log_level_str = "ERROR" := by
  refine ⟨?_, by decide, by decide⟩
  intro s
  show inferLogLevel s = specInferredLevel s
  exact inferLogLevel_eq_spec s

/-- Claim C7: every entry the raw-write path creates carries the fixed
console sentinel severity: the constructed item has level
`LOG_LEVEL_CONSOLE`, and any item present after a raw write was either
already present or is such a console-sentinel item. -/
theorem C7_raw_write_console_sentinel :
    (∀ s : String, (LogItem.init s (some LOG_LEVEL_CONSOLE)).log_level = LOG_LEVEL_CONSOLE) ∧
    (∀ (o : OutputList) (s : String) (o' : OutputList) (i : LogItem),
      o.write s = .ok o' →
      i ∈ o'.unfiltered_list ∨ i ∈ o'._paused_buffer ∨ i ∈ o'.filtered_list →
      (i ∈ o.unfiltered_list ∨ i ∈ o._paused_buffer ∨ i ∈ o.filtered_list) ∨
        i.log_level = LOG_LEVEL_CONSOLE) := by
  constructor
  · intro s
    rfl
  · intro o s o' i hw hi
    unfold OutputList.write at hw
    by_cases hs : pyIsspace s = true
    · rw [if_pos hs] at hw
      simp only [PyResult.pure_eq_ok] at hw
      injection hw with hw
      subst hw
      exact Or.inl hi
    · rw [if_neg hs] at hw
      cases hpause : o.paused with
      | true =>
          obtain ⟨h1, h2, _, _, _, h6⟩ := route_paused o _ o' hpause hw
          rcases hi with hi | hi | hi
          · rw [h1] at hi
            exact Or.inl (Or.inl hi)
          · rcases mem_of_append_truncate _ _ _ _ _ h6 hi with he | he
            · exact Or.inr (by rw [he]; rfl)
            · exact Or.inl (Or.inr (Or.inl he))
          · rw [h2] at hi
            exact Or.inl (Or.inr (Or.inr hi))
      | false =>
          obtain ⟨h1, h2, _, _, _, hdisj⟩ := route_unpaused o _ o' hpause hw
          rcases hi with hi | hi | hi
          · rcases mem_of_append_truncate _ _ _ _ _ h1 hi with he | he
            · exact Or.inr (by rw [he]; rfl)
            · exact Or.inl (Or.inl he)
          · rw [h2] at hi
            exact Or.inl (Or.inr (Or.inl hi))
          · rcases hdisj with ⟨_, hf⟩ | ⟨_, hf⟩
            · rcases mem_of_append_truncate _ _ _ _ _ hf hi with he | he
              · exact Or.inr (by rw [he]; rfl)
              · exact Or.inl (Or.inr (Or.inr he))
            · rw [hf] at hi
              exact Or.inl (Or.inr (Or.inr hi))

/-- The state a fresh buffer is in after the raw write of "boom". -/
def c7After : OutputList :=
  { unfiltered_list := [{ log_level := LOG_LEVEL_CONSOLE, msg := "boom" }]
    _paused_buffer := []
    filtered_list := [{ log_level := LOG_LEVEL_CONSOLE, msg := "boom" }]
    log_level_filter := LOG_WARN
    max_len := some DEFAULT_MAX_LEN
    paused := false }

/-- Witness for C7 at concrete inputs. -/
theorem C7_witness :
    (({ log_level := LOG_LEVEL_CONSOLE, msg := "boom" } : LogItem) ∈
          OutputList.initial.unfiltered_list ∨
        ({ log_level := LOG_LEVEL_CONSOLE, msg := "boom" } : LogItem) ∈
          OutputList.initial._paused_buffer ∨
        ({ log_level := LOG_LEVEL_CONSOLE, msg := "boom" } : LogItem) ∈
          OutputList.initial.filtered_list) ∨
      ({ log_level := LOG_LEVEL_CONSOLE, msg := "boom" } : LogItem).log_level =
        LOG_LEVEL_CONSOLE :=
  C7_raw_write_console_sentinel.2 OutputList.initial "boom" c7After
    { log_level := LOG_LEVEL_CONSOLE, msg := "boom" } (by decide) (Or.inl (by decide))

/-- Claim C8: a whitespace-only raw write is a no-op: the state is
returned unchanged (in particular `unfiltered_list`, `filtered_list` and
`_paused_buffer` are untouched and no entry is created). -/
theorem C8_whitespace_write_noop (o : OutputList) (s : String)
    (h : pyIsspace s = true) : o.write s = .ok o := by
  unfold OutputList.write
  rw [if_pos h]
  rfl

/-- Witness for C8: writing a blank-and-newline string to the fresh
buffer returns it unchanged. -/
theorem C8_witness : OutputList.initial.write "  \n" = .ok OutputList.initial :=
  C8_whitespace_write_noop OutputList.initial "  \n" (by decide)

/-- Claim C9: console-sentinel entries pass the filter at every
recognized threshold, so an unpaused raw write that creates an entry also
puts that entry at the front of `filtered_list`. -/
theorem C9_console_unmaskable :
    (∀ (i : LogItem) (lvl : Int), i.log_level = LOG_LEVEL_CONSOLE →
      (lvl = LOG_ERROR ∨ lvl = LOG_WARN ∨ lvl = LOG_INFO ∨ lvl = LOG_DEBUG) →
      i.matches_log_level_filter lvl = true) ∧
    (∀ (o : OutputList) (s : String) (o' : OutputList),
      o.paused = false → pyIsspace s = false →
      (o.log_level_filter = LOG_ERROR ∨ o.log_level_filter = LOG_WARN ∨
        o.log_level_filter = LOG_INFO ∨ o.log_level_filter = LOG_DEBUG) →
      o.write s = .ok o' →
      o'.filtered_list.head? = some (LogItem.init s (some LOG_LEVEL_CONSOLE))) := by
  constructor
  · intro i lvl hi hlvl
    unfold LogItem.matches_log_level_filter
    rw [hi]
    rcases hlvl with h | h | h | h <;> rw [h] <;> decide
  · intro o s o' hp hs hlvl hw
    unfold OutputList.write at hw
    rw [if_neg (by simp [hs])] at hw
    obtain ⟨_, _, _, _, _, hdisj⟩ := route_unpaused o _ o' hp hw
    have hm : (LogItem.init s (some LOG_LEVEL_CONSOLE)).matches_log_level_filter
        o.log_level_filter = true := by
      have hlev : (LogItem.init s (some LOG_LEVEL_CONSOLE)).log_level = LOG_LEVEL_CONSOLE := rfl
      unfold LogItem.matches_log_level_filter
      rw [hlev]
      rcases hlvl with h | h | h | h <;> rw [h] <;> decide
    rcases hdisj with ⟨_, hf⟩ | ⟨hpass, _⟩
    · exact head_of_append_truncate _ _ _ _ hf
    · rw [hm] at hpass
      cases hpass

/-- Witness for C9 at concrete inputs. -/
theorem C9_witness :
    ({ log_level := LOG_LEVEL_CONSOLE, msg := "w" } : LogItem).matches_log_level_filter
        LOG_ERROR = true ∧
      c7After.filtered_list.head? = some (LogItem.init "boom" (some LOG_LEVEL_CONSOLE)) :=
  ⟨C9_console_unmaskable.1 { log_level := LOG_LEVEL_CONSOLE, msg := "w" } LOG_ERROR rfl
      (Or.inl rfl),
    C9_console_unmaskable.2 OutputList.initial "boom" c7After rfl (by decide)
      (Or.inr (Or.inl rfl)) (by decide)⟩

/-- Claim C10: the empty string is not whitespace under `str.isspace()`
(which is false on the empty string), so `write("")` is not discarded:
it creates the entry with empty message and console-sentinel severity
and puts it at the front of `unfiltered_list`. -/
theorem C10_empty_write_not_discarded :
    pyIsspace "" = false ∧
    LogItem.init "" (some LOG_LEVEL_CONSOLE) =
      { log_level := LOG_LEVEL_CONSOLE, msg := "" } ∧
    (∀ (o : OutputList) (o' : OutputList), o.paused = false → o.write "" = .ok o' →
      o'.unfiltered_list.head? = some { log_level := LOG_LEVEL_CONSOLE, msg := "" }) := by
  refine ⟨by decide, by decide, ?_⟩
  intro o o' hp hw
  unfold OutputList.write at hw
  rw [if_neg (by decide)] at hw
  obtain ⟨h1, _, _, _, _, _⟩ := route_unpaused o _ o' hp hw
  have hh := head_of_append_truncate _ _ _ _ h1
  rw [hh]
  decide

/-- The state a fresh buffer is in after `write("")`. -/
def c10After : OutputList :=
  { unfiltered_list := [{ log_level := LOG_LEVEL_CONSOLE, msg := "" }]
    _paused_buffer := []
    filtered_list := [{ log_level := LOG_LEVEL_CONSOLE, msg := "" }]
    log_level_filter := LOG_WARN
    max_len := some DEFAULT_MAX_LEN
    paused := false }

/-- Witness for C10 at concrete inputs. -/
theorem C10_witness :
    c10After.unfiltered_list.head? = some { log_level := LOG_LEVEL_CONSOLE, msg := "" } :=
  C10_empty_write_not_discarded.2.2 OutputList.initial c10After rfl (by decide)

/-- Claim C4: while paused, raw and leveled writes touch only
`_paused_buffer` (one `append_truncate` at the front, same truncation
discipline) and leave `unfiltered_list` and `filtered_list` unchanged;
and the false-to-true pause transition seeds `_paused_buffer` with the
current `unfiltered_list` while leaving the two display lists unchanged. -/
theorem C4_paused_frame :
    (∀ (o : OutputList) (s : String) (o' : OutputList),
      o.paused = true → pyIsspace s = false → o.write s = .ok o' →
      o'.unfiltered_list = o.unfiltered_list ∧ o'.filtered_list = o.filtered_list ∧
        append_truncate o.max_len o._paused_buffer (LogItem.init s (some LOG_LEVEL_CONSOLE)) =
          .ok o'._paused_buffer) ∧
    (∀ (o : OutputList) (s : String) (lvl : Option Int) (o' : OutputList),
      o.paused = true → o.write_level s lvl = .ok o' →
      o'.unfiltered_list = o.unfiltered_list ∧ o'.filtered_list = o.filtered_list ∧
        append_truncate o.max_len o._paused_buffer (LogItem.init s lvl) =
          .ok o'._paused_buffer) ∧
    (∀ o : OutputList, o.paused = false →
      (o.set_paused true)._paused_buffer = o.unfiltered_list ∧
      (o.set_paused true).unfiltered_list = o.unfiltered_list ∧
      (o.set_paused true).filtered_list = o.filtered_list) := by
  refine ⟨?_, ?_, ?_⟩
  · intro o s o' hp hs hw
    unfold OutputList.write at hw
    rw [if_neg (by simp [hs])] at hw
    obtain ⟨h1, h2, _, _, _, h6⟩ := route_paused o _ o' hp hw
    exact ⟨h1, h2, h6⟩
  · intro o s lvl o' hp hw
    obtain ⟨h1, h2, _, _, _, h6⟩ := route_paused o _ o' hp hw
    exact ⟨h1, h2, h6⟩
  · intro o hp
    unfold OutputList.set_paused
    rw [if_neg (by simp [hp])]
    exact ⟨rfl, rfl, rfl⟩

/-- A buffer in the paused state, with one pre-pause entry already seeded
into `_paused_buffer` (as `_paused_changed` does on pause entry). -/
def pausedSample : OutputList :=
  { unfiltered_list := [{ log_level := LOG_INFO, msg := "old" }]
    _paused_buffer := [{ log_level := LOG_INFO, msg := "old" }]
    filtered_list := []
    log_level_filter := LOG_WARN
    max_len := some DEFAULT_MAX_LEN
    paused := true }

/-- State `pausedSample` after the paused raw write of "x". -/
def c4AfterRaw : OutputList :=
  { unfiltered_list := [{ log_level := LOG_INFO, msg := "old" }]
    _paused_buffer :=
      [{ log_level := LOG_LEVEL_CONSOLE, msg := "x" }, { log_level := LOG_INFO, msg := "old" }]
    filtered_list := []
    log_level_filter := LOG_WARN
    max_len := some DEFAULT_MAX_LEN
    paused := true }

/-- State `pausedSample` after the paused leveled write of "w" (inferred to the
default sentinel). -/
def c4AfterLeveled : OutputList :=
  { unfiltered_list := [{ log_level := LOG_INFO, msg := "old" }]
    _paused_buffer :=
      [{ log_level := LOG_LEVEL_DEFAULT, msg := "w" }, { log_level := LOG_INFO, msg := "old" }]
    filtered_list := []
    log_level_filter := LOG_WARN
    max_len := some DEFAULT_MAX_LEN
    paused := true }

/-- Witness for C4 at concrete inputs. -/
theorem C4_witness :
    (c4AfterRaw.unfiltered_list = pausedSample.unfiltered_list ∧
        c4AfterRaw.filtered_list = pausedSample.filtered_list ∧
        append_truncate pausedSample.max_len pausedSample._paused_buffer
            (LogItem.init "x" (some LOG_LEVEL_CONSOLE)) = .ok c4AfterRaw._paused_buffer) ∧
      (c4AfterLeveled.unfiltered_list = pausedSample.unfiltered_list ∧
        c4AfterLeveled.filtered_list = pausedSample.filtered_list ∧
        append_truncate pausedSample.max_len pausedSample._paused_buffer
            (LogItem.init "w" none) = .ok c4AfterLeveled._paused_buffer) ∧
      ((OutputList.initial.set_paused true)._paused_buffer =
          OutputList.initial.unfiltered_list ∧
        (OutputList.initial.set_paused true).unfiltered_list =
          OutputList.initial.unfiltered_list ∧
        (OutputList.initial.set_paused true).filtered_list =
          OutputList.initial.filtered_list) :=
  ⟨C4_paused_frame.1 pausedSample "x" c4AfterRaw rfl (by decide) (by decide),
    C4_paused_frame.2.1 pausedSample "w" none c4AfterLeveled rfl (by decide),
    C4_paused_frame.2.2 OutputList.initial rfl⟩

/-- Claim C5: the true-to-false pause transition replaces
`unfiltered_list` with the pre-transition `_paused_buffer`, recomputes
`filtered_list` from it at the existing threshold, and empties
`_paused_buffer`. -/
theorem C5_unpause_swap (o : OutputList) (h : o.paused = true) :
    (o.set_paused false).unfiltered_list = o._paused_buffer ∧
    (o.set_paused false).filtered_list =
      o._paused_buffer.filter (fun i => i.matches_log_level_filter o.log_level_filter) ∧
    (o.set_paused false)._paused_buffer = [] := by
  unfold OutputList.set_paused
  rw [if_neg (by simp [h])]
  exact ⟨rfl, rfl, rfl⟩

/-- Witness for C5 at a concrete paused state. -/
theorem C5_witness :
    (pausedSample.set_paused false).unfiltered_list = pausedSample._paused_buffer ∧
    (pausedSample.set_paused false).filtered_list =
      pausedSample._paused_buffer.filter
        (fun i => i.matches_log_level_filter pausedSample.log_level_filter) ∧
    (pausedSample.set_paused false)._paused_buffer = [] :=
  C5_unpause_swap pausedSample rfl

/-- Claim C1 (amended): after every `_log_level_filter_changed`
recomputation, `filtered_list` is exactly the filter-passing sublist of
`unfiltered_list` in order; and an unpaused `write`/`write_level`
preserves that equality whenever it does not truncate (the pre-write
`unfiltered_list` length is at most `max_len`).  Once truncation fires
the equality can fail (see the counterexample). -/
theorem C1_filtered_invariant :
    (∀ o : OutputList, filteredOk o.log_level_filter_changed) ∧
    (∀ (o : OutputList) (s : String) (lvl : Option Int) (n : Nat) (o' : OutputList),
      o.max_len = some n → o.paused = false → o.unfiltered_list.length ≤ n →
      filteredOk o → o.write_level s lvl = .ok o' → filteredOk o') ∧
    (∀ (o : OutputList) (s : String) (n : Nat) (o' : OutputList),
      o.max_len = some n → o.paused = false → o.unfiltered_list.length ≤ n →
      filteredOk o → o.write s = .ok o' → filteredOk o') := by
  refine ⟨?_, ?_, ?_⟩
  · intro o
    unfold filteredOk OutputList.log_level_filter_changed
    rfl
  · intro o s lvl n o' hml hp hlen hok hw
    exact route_preserves_filteredOk o _ n o' hml hp hlen hok hw
  · intro o s n o' hml hp hlen hok hw
    unfold OutputList.write at hw
    by_cases hs : pyIsspace s = true
    · rw [if_pos hs] at hw
      simp only [PyResult.pure_eq_ok] at hw
      injection hw with hw
      subst hw
      exact hok
    · rw [if_neg hs] at hw
      exact route_preserves_filteredOk o _ n o' hml hp hlen hok hw

/-- With `max_len = 1` and filter WARNING, the state after the unpaused
leveled writes "a"(ERROR), "b"(INFO), "c"(ERROR): the third write evicts
"a" from `unfiltered_list` but not from `filtered_list`. -/
def c1CexFinal : OutputList :=
  { unfiltered_list :=
      [{ log_level := LOG_ERROR, msg := "c" }, { log_level := LOG_INFO, msg := "b" }]
    _paused_buffer := []
    filtered_list :=
      [{ log_level := LOG_ERROR, msg := "c" }, { log_level := LOG_ERROR, msg := "a" }]
    log_level_filter := LOG_WARN
    max_len := some 1
    paused := false }

/-- Counterexample to C1 as stated: after three unpaused leveled writes
with `max_len = 1`, `filtered_list` still holds the evicted entry "a" and
is not the filter-passing sublist of `unfiltered_list`. -/
theorem C1_counterexample :
    (OutputList.initial.set_max_len (some 1)).runWrites
        [WriteOp.leveled "a" (some LOG_ERROR), WriteOp.leveled "b" (some LOG_INFO),
          WriteOp.leveled "c" (some LOG_ERROR)] = .ok c1CexFinal ∧
      ¬ filteredOk c1CexFinal := by
  constructor
  · decide
  · decide

/-- The fresh buffer after the unpaused leveled write of
"ERROR: disk full" (inferred severity ERROR, which passes WARNING). -/
def c1AfterLeveled : OutputList :=
  { unfiltered_list := [{ log_level := LOG_ERROR, msg := "ERROR: disk full" }]
    _paused_buffer := []
    filtered_list := [{ log_level := LOG_ERROR, msg := "ERROR: disk full" }]
    log_level_filter := LOG_WARN
    max_len := some DEFAULT_MAX_LEN
    paused := false }

/-- Witness for C1 at concrete inputs. -/
theorem C1_witness :
    filteredOk OutputList.initial.log_level_filter_changed ∧
      filteredOk c1AfterLeveled ∧ filteredOk c7After :=
  ⟨C1_filtered_invariant.1 OutputList.initial,
    C1_filtered_invariant.2.1 OutputList.initial "ERROR: disk full" none DEFAULT_MAX_LEN
      c1AfterLeveled rfl rfl (by decide) (by decide) (by decide),
    C1_filtered_invariant.2.2 OutputList.initial "boom" DEFAULT_MAX_LEN c7After rfl rfl
      (by decide) (by decide) (by decide)⟩

/-- Claim C2 (amended): from any state whose three buffers are within
`max_len + 1`, every sequence of `write`/`write_level` calls succeeds and
leaves `unfiltered_list` and `_paused_buffer` within `max_len + 1` after
each call (the bound `max_len` itself is exceeded by one; see the
counterexample). -/
theorem C2_length_bound (n : Nat) (o : OutputList) (ops : List WriteOp) (o' : OutputList)
    (hml : o.max_len = some n)
    (hu : o.unfiltered_list.length ≤ n + 1)
    (hpb : o._paused_buffer.length ≤ n + 1)
    (hf : o.filtered_list.length ≤ n + 1)
    (hrun : o.runWrites ops = .ok o') :
    o'.unfiltered_list.length ≤ n + 1 ∧ o'._paused_buffer.length ≤ n + 1 := by
  obtain ⟨o2, hrun2, _, hb⟩ := runWrites_bounded ops o n hml ⟨hu, hpb, hf⟩
  rw [hrun] at hrun2
  injection hrun2 with he
  subst he
  exact ⟨hb.1, hb.2.1⟩

/-- With `max_len = 1`, the state after the raw writes "a" then "b":
both lists hold two entries, one more than `max_len`. -/
def c2CexFinal : OutputList :=
  { unfiltered_list :=
      [{ log_level := LOG_LEVEL_CONSOLE, msg := "b" },
        { log_level := LOG_LEVEL_CONSOLE, msg := "a" }]
    _paused_buffer := []
    filtered_list :=
      [{ log_level := LOG_LEVEL_CONSOLE, msg := "b" },
        { log_level := LOG_LEVEL_CONSOLE, msg := "a" }]
    log_level_filter := LOG_WARN
    max_len := some 1
    paused := false }

/-- Counterexample to C2 as stated: with `max_len = 1`, two writes leave
`unfiltered_list` at length 2 > 1 (truncation only fires once the bound
is already exceeded, so buffers reach `max_len + 1`). -/
theorem C2_counterexample :
    (OutputList.initial.set_max_len (some 1)).runWrites
        [WriteOp.raw "a", WriteOp.raw "b"] = .ok c2CexFinal ∧
      ¬ c2CexFinal.unfiltered_list.length ≤ 1 := by
  constructor
  · decide
  · decide

/-- The state after one raw write with `max_len = 1`. -/
def c2WitnessAfter : OutputList :=
  { unfiltered_list := [{ log_level := LOG_LEVEL_CONSOLE, msg := "hi" }]
    _paused_buffer := []
    filtered_list := [{ log_level := LOG_LEVEL_CONSOLE, msg := "hi" }]
    log_level_filter := LOG_WARN
    max_len := some 1
    paused := false }

/-- Witness for C2 at concrete inputs. -/
theorem C2_witness :
    c2WitnessAfter.unfiltered_list.length ≤ 1 + 1 ∧
      c2WitnessAfter._paused_buffer.length ≤ 1 + 1 :=
  C2_length_bound 1 (OutputList.initial.set_max_len (some 1)) [WriteOp.raw "hi"]
    c2WitnessAfter rfl (by decide) (by decide) (by decide) (by decide)
